import Mathlib

/-!
Shallow embedding of the request-processing core of the `grazie` HTTP middleware
framework (`src/core/seeder.rs`): the shared body buffer (`BoxBody`), the
accessibility guard (`Guard`), and the resolution protocol (`Respondent`).

Modelling conventions:
- A Rust byte (`u8`) is `Fin 256`; a heap byte block (`Box<[u8]>`, `Arc<[u8]>`)
  is a `List Byte`.
- A Rust method taking `&self` or `&mut self` is a function from the receiver
  state; methods that may mutate return a `result × state` pair, so that frame
  properties (what a call leaves unchanged) are expressible.
- Rust `Result<T, E>` is `Except E T`; `.ok()` is `Except.toOption`.
- A `panic!` is modelled as the `Except.error` branch of an `Except String`
  result, kept distinct from soft `Option`-valued failure: functions whose Rust
  signature returns `Option` are embedded with an `Option` result (no fault
  channel), while functions that can panic return `Except String`.
- Generic bounds (`B: TryFrom<&[u8]>`, `B: Into<Box<[u8]>>`) become explicit
  function parameters standing for the trait method of the instance in use.
-/

namespace Grazie

/-- A single byte, `u8` in the source. -/
abbrev Byte := Fin 256

/-- `hyper::StatusCode`, a 16-bit HTTP status code. No arithmetic is ever
performed on it in the embedded code, so it is kept as `Nat`. -/
abbrev StatusCode := Nat

/-- Models `Respondent` from `src/core/seeder.rs`. The payload types
(`HttpResponse<BoxBody>`, `Box<dyn SeederFactory>`, `Box<dyn Any + Send>`) are
never inspected by the embedded operations, so they are abstracted as the
type parameters `Resp`, `Fac` and `Ext`. -/
inductive Respondent (Resp Fac Ext : Type) where
  | Respond : Resp → Respondent Resp Fac Ext
  | Reseed : Fac → Respondent Resp Fac Ext
  | Other : Ext → Respondent Resp Fac Ext
  | Ignore : Respondent Resp Fac Ext

/-- Models `Guard<'a, T>` from `src/core/seeder.rs`. The borrowed reference
`&'a T` is embedded as a value of type `T`: instantiating `T` with an address
or index type recovers reference identity, and equality of the carried value
is the embedding of "same underlying reference". -/
inductive Guard (T Resp Fac Ext : Type) where
  | Accessible : T → Guard T Resp Fac Ext
  | Inaccessible : (request : T) → (respondent : Respondent Resp Fac Ext) →
      (reason : Option String) → (status_code : StatusCode) → Guard T Resp Fac Ext

variable {T Resp Fac Ext : Type} {B : Type} {E : Type}

/-- Models `Guard::accessible`:
matches `Accessible(_) => true`, `Inaccessible { .. } => false`. -/
def Guard.accessible : Guard T Resp Fac Ext → Bool
  | .Accessible _ => true
  | .Inaccessible _ _ _ _ => false

/-- Models `Guard::inaccessible`:
matches `Accessible(_) => false`, `Inaccessible { .. } => true`. -/
def Guard.inaccessible : Guard T Resp Fac Ext → Bool
  | .Accessible _ => false
  | .Inaccessible _ _ _ _ => true

/-- Models `Guard::unwrap`: returns the held reference on `Accessible` and
executes `panic!("Called unwrap on an inaccessible guard!")` on
`Inaccessible`. The panic is the `Except.error` branch. -/
def Guard.unwrap : Guard T Resp Fac Ext → Except String T
  | .Accessible value => .ok value
  | .Inaccessible _ _ _ _ => .error "Called unwrap on an inaccessible guard!"

/-- Models `BoxBody` from `src/core/seeder.rs`: `inner: Arc<[u8]>`, the
reference-counted heap byte block holding the request body. -/
structure BoxBody where
  inner : List Byte
deriving DecidableEq

/-- Models `BoxBody::new(inner: Box<[u8]>)`. -/
def BoxBody.new (inner : List Byte) : BoxBody :=
  { inner := inner }

/-- Models `BoxBody::open::<B>(&self) -> Box<Option<B>>`, which evaluates
`Box::new(B::try_from(&self.inner).ok())`. The parameter `try_from` stands for
`<B as TryFrom<&[u8]>>::try_from` of the instance in use; `Box::new` is an
allocation wrapper with identity value semantics and is dropped. The method
takes `&self`, so the returned state is the unchanged receiver. -/
def BoxBody.«open» (try_from : List Byte → Except E B) (self : BoxBody) :
    Option B × BoxBody :=
  ((try_from self.inner).toOption, self)

/-- Models `BoxBody::close::<B>(&mut self, body: B) -> Option<()>`, which
evaluates `let new_body: Box<[u8]> = body.try_into().ok()?;` followed by
`self.inner = Arc::from(new_body); Some(())`. The parameter `try_into` stands
for `<B as TryInto<Box<[u8]>>>::try_into` of the instance in use. The `?`
early-return on `None` leaves the receiver unchanged. -/
def BoxBody.close (try_into : B → Except E (List Byte)) (self : BoxBody) (body : B) :
    Option Unit × BoxBody :=
  match (try_into body).toOption with
  | none => (none, self)
  | some new_body => (some (), { self with inner := new_body })

/-- Models `BoxBody::raw_bytes(&self) -> &[u8]`, returning `&self.inner`. -/
def BoxBody.raw_bytes (self : BoxBody) : List Byte :=
  self.inner

/-- Models the blanket `impl<T, U: Into<T>> TryFrom<U> for T` of the Rust
standard library at `T = Box<[u8]>`, the instance selected by the bound
`B: Into<Box<[u8]>>` on `BoxBody::close`: its error type is `Infallible`
(embedded as `Empty`) and it always returns `Ok(into(body))`. -/
def intoTryInto (into : B → List Byte) : B → Except Empty (List Byte) :=
  fun b => .ok (into b)

/-- Models the built-in byte-slice codec's decode half: the standard library's
`From<&[u8]> for Box<[u8]>` (copies the slice into a fresh box, value-equal to
the input), lifted through the blanket `TryFrom` instance, so it always
returns `Ok` of the current bytes. -/
def byteSliceTryFrom : List Byte → Except Empty (List Byte) :=
  fun bs => .ok bs

/-- Models the built-in byte-slice codec's encode half: `Into<Box<[u8]>>` at
`B = Box<[u8]>`, the identity conversion. -/
def byteSliceInto : List Byte → List Byte :=
  fun bs => bs

/-- Modelled from the spec: `decode_unchecked<V>()` is described in the spec
but absent from the repository source under `src/` (the buffer there exposes
only the fallible `open`, `open_json` and `open_xml`). Per the spec it decodes
like `try_decode` but "triggers a fatal fault if the bytes cannot be
interpreted as `V`"; the fatal fault is the `Except.error` branch. -/
def BoxBody.decode_unchecked (try_from : List Byte → Except E B) (self : BoxBody) :
    Except String B :=
  match (try_from self.inner).toOption with
  | some v => .ok v
  | none => .error "decode_unchecked: bytes cannot be interpreted as the target type"

/-- Modelled from the spec: the pipeline driver that resolves an
`Inaccessible` guard is absent from the repository source under `src/`
(`HttpServer::run` is `unimplemented!()`; `Respondent::Ignore` is only
declared). Per the spec, resolving via `Respondent::Ignore` yields
`Accessible` over the same underlying request reference, discarding the
rejection metadata; every other guard is left as is. -/
def resolveIgnore : Guard T Resp Fac Ext → Guard T Resp Fac Ext
  | .Inaccessible request .Ignore _ _ => .Accessible request
  | g => g

/-!
Interleaving model for the atomic-swap property. `BoxBody::close` performs
exactly one write to shared state: the single pointer assignment
`self.inner = Arc::from(new_body)` after the new block has been fully built by
`body.try_into()`. A reader (`raw_bytes` / an `Arc` deref) obtains the whole
block a pointer currently designates. The steps below are the statements of
the source at that granularity.
-/

/-- One atomic step of a writer running `BoxBody::close` concurrently with a
reader. `compute` is `let new_body: Box<[u8]> = body.try_into().ok()?`
(builds the new block privately, no shared-state write); `swap` is
`self.inner = Arc::from(new_body)` (the single pointer replacement); `read`
is the reader dereferencing the pointer and obtaining the designated block. -/
inductive SwapStep where
  | compute : SwapStep
  | swap : SwapStep
  | read : SwapStep
deriving DecidableEq

/-- Shared state during a close/read interleaving: the current byte block and
the block the reader observed, if it has read yet. -/
structure SwapState where
  inner : List Byte
  observed : Option (List Byte)
deriving DecidableEq

/-- Executes a sequence of interleaved steps: `compute` leaves shared state
untouched, `swap` replaces the whole block with `new_body`, `read` snapshots
the current block. -/
def runSwapSteps (new_body : List Byte) : List SwapStep → SwapState → SwapState
  | [], s => s
  | .compute :: rest, s => runSwapSteps new_body rest s
  | .swap :: rest, s => runSwapSteps new_body rest { s with inner := new_body }
  | .read :: rest, s => runSwapSteps new_body rest { s with observed := some s.inner }

/-- `Interleave xs ys zs` holds when `zs` is an order-preserving merge of the
two per-thread step sequences `xs` and `ys`: the schedules a scheduler can
produce from the two threads. -/
inductive Interleave : List SwapStep → List SwapStep → List SwapStep → Prop where
  | nil : Interleave [] [] []
  | left {x : SwapStep} {xs ys zs : List SwapStep} :
      Interleave xs ys zs → Interleave (x :: xs) ys (x :: zs)
  | right {y : SwapStep} {xs ys zs : List SwapStep} :
      Interleave xs ys zs → Interleave xs (y :: ys) (y :: zs)

/-- The writer thread of `BoxBody::close`: build the new block, then swap. -/
def closeWriterSteps : List SwapStep :=
  [SwapStep.compute, SwapStep.swap]

/-- The reader thread: a single whole-block read. -/
def readerSteps : List SwapStep :=
  [SwapStep.read]

/-- C1: `Guard::unwrap` on an `Accessible` guard returns the held reference,
and on an `Inaccessible` guard is a fatal fault (the panic branch, modelled as
`Except.error`), not a recoverable failure. -/
theorem guard_unwrap_accessible_ok_inaccessible_fault (g : Guard T Resp Fac Ext) :
    (∀ v : T, g = .Accessible v → g.unwrap = .ok v) ∧
    (g.inaccessible = true → ∃ msg, g.unwrap = .error msg) := by
  cases g <;> simp [Guard.unwrap, Guard.inaccessible]

/-- Witness for C1 at concrete guards over `T = Nat`. -/
theorem guard_unwrap_accessible_ok_inaccessible_fault_witness :
    ((Guard.Accessible 5 : Guard Nat Unit Unit Unit).unwrap = .ok 5) ∧
    ∃ msg, (Guard.Inaccessible 7 .Ignore none 401 : Guard Nat Unit Unit Unit).unwrap =
      .error msg :=
  ⟨(guard_unwrap_accessible_ok_inaccessible_fault (Guard.Accessible 5)).1 5 rfl,
   (guard_unwrap_accessible_ok_inaccessible_fault
      (Guard.Inaccessible 7 .Ignore none 401)).2 rfl⟩

/-- C2: when the target type's conversion rejects the current bytes,
`BoxBody::open` returns the absent result and leaves the buffer untouched;
its result type carries no fault channel, so absence is the only failure
signal (the conversion's error is erased by `.ok()`). -/
theorem open_decode_failure_absent (try_from : List Byte → Except E B) (self : BoxBody)
    (h : ∀ b : B, try_from self.inner ≠ .ok b) :
    BoxBody.«open» try_from self = (none, self) := by
  cases heq : try_from self.inner with
  | ok b => exact absurd heq (h b)
  | error e => simp [BoxBody.«open», Except.toOption, heq]

/-- Witness for C2 at a conversion that rejects every byte block. -/
theorem open_decode_failure_absent_witness :
    BoxBody.«open» (fun _ => (Except.error "mismatch" : Except String Nat))
      (BoxBody.new [104]) = (none, BoxBody.new [104]) :=
  open_decode_failure_absent (fun _ => (Except.error "mismatch" : Except String Nat))
    (BoxBody.new [104]) (fun _ hb => Except.noConfusion hb)

/-- C3: built-in byte-slice codec round-trip: encoding a value into the
buffer via `BoxBody::close` and decoding it back via `BoxBody::open` at the
same type yields the value, present. -/
theorem byte_slice_codec_round_trip (self : BoxBody) (v : List Byte) :
    (BoxBody.«open» byteSliceTryFrom
      (BoxBody.close (intoTryInto byteSliceInto) self v).2).1 = some v := rfl

/-- C4: `BoxBody::close` returns the present result exactly when the encoding
conversion succeeded, and on success `BoxBody::raw_bytes` on the resulting
buffer yields the newly encoded bytes. -/
theorem close_success_iff_encode (try_into : B → Except E (List Byte)) (self : BoxBody)
    (body : B) :
    ((BoxBody.close try_into self body).1 = some () ↔ ∃ bs, try_into body = .ok bs) ∧
    ∀ bs, try_into body = .ok bs →
      BoxBody.raw_bytes (BoxBody.close try_into self body).2 = bs := by
  cases heq : try_into body <;>
    simp [BoxBody.close, BoxBody.raw_bytes, Except.toOption, heq]

/-- Witness for C4 at the byte-slice encoding of `[1, 2]` into a buffer
holding `[0]`. -/
theorem close_success_iff_encode_witness :
    (BoxBody.close (intoTryInto byteSliceInto) (BoxBody.new [0]) [1, 2]).1 = some () ∧
    BoxBody.raw_bytes
      (BoxBody.close (intoTryInto byteSliceInto) (BoxBody.new [0]) [1, 2]).2 = [1, 2] :=
  ⟨(close_success_iff_encode (intoTryInto byteSliceInto) (BoxBody.new [0]) [1, 2]).1.2
      ⟨[1, 2], rfl⟩,
   (close_success_iff_encode (intoTryInto byteSliceInto) (BoxBody.new [0]) [1, 2]).2
      [1, 2] rfl⟩

/-- C5: `decode_unchecked` (modelled from the spec; absent from `src/`)
triggers a fatal fault, not an absent result, whenever the bytes cannot be
interpreted as the target type. -/
theorem decode_unchecked_fault_on_mismatch (try_from : List Byte → Except E B)
    (self : BoxBody) (h : ∀ b : B, try_from self.inner ≠ .ok b) :
    ∃ msg, BoxBody.decode_unchecked try_from self = .error msg := by
  cases heq : try_from self.inner with
  | ok b => exact absurd heq (h b)
  | error e =>
    exact ⟨"decode_unchecked: bytes cannot be interpreted as the target type",
      by simp [BoxBody.decode_unchecked, Except.toOption, heq]⟩

/-- Witness for C5 at a conversion that rejects every byte block. -/
theorem decode_unchecked_fault_on_mismatch_witness :
    ∃ msg, BoxBody.decode_unchecked
      (fun _ => (Except.error "mismatch" : Except String Nat)) (BoxBody.new [104]) =
        .error msg :=
  decode_unchecked_fault_on_mismatch
    (fun _ => (Except.error "mismatch" : Except String Nat))
    (BoxBody.new [104]) (fun _ hb => Except.noConfusion hb)

/-- C6: resolving an `Inaccessible` guard whose respondent is
`Respondent::Ignore` (resolution modelled from the spec; the driver is absent
from `src/`) yields an `Accessible` guard over the same underlying request
reference, with reason, status code and respondent discarded. -/
theorem resolve_ignore_accessible_same_request (request : T) (reason : Option String)
    (status_code : StatusCode) :
    resolveIgnore (Guard.Inaccessible request Respondent.Ignore reason status_code :
      Guard T Resp Fac Ext) = Guard.Accessible request := rfl

/-- C7: under every scheduler interleaving of a reader with a concurrently
executing `BoxBody::close`, the reader observes either the fully-old or the
fully-new byte block, never a mixture: the only shared-state write in `close`
is the single whole-pointer swap. -/
theorem atomic_swap_no_torn_read (old new_body : List Byte) (tr : List SwapStep)
    (h : Interleave closeWriterSteps readerSteps tr) :
    (runSwapSteps new_body tr { inner := old, observed := none }).observed = some old ∨
    (runSwapSteps new_body tr { inner := old, observed := none }).observed =
      some new_body := by
  unfold closeWriterSteps readerSteps at h
  cases h with
  | left h1 =>
    cases h1 with
    | left h2 =>
      cases h2 with
      | right h3 =>
        cases h3 with
        | nil => exact Or.inr rfl
    | right h2 =>
      cases h2 with
      | left h3 =>
        cases h3 with
        | nil => exact Or.inl rfl
  | right h1 =>
    cases h1 with
    | left h2 =>
      cases h2 with
      | left h3 =>
        cases h3 with
        | nil => exact Or.inl rfl

/-- Witness for C7 at the schedule that reads before the writer runs. -/
theorem atomic_swap_no_torn_read_witness :
    (runSwapSteps [1] [SwapStep.read, SwapStep.compute, SwapStep.swap]
      { inner := [0], observed := none }).observed = some [0] ∨
    (runSwapSteps [1] [SwapStep.read, SwapStep.compute, SwapStep.swap]
      { inner := [0], observed := none }).observed = some [1] :=
  atomic_swap_no_torn_read [0] [1] [SwapStep.read, SwapStep.compute, SwapStep.swap]
    (Interleave.right (Interleave.left (Interleave.left Interleave.nil)))

/-- C8: with the byte-slice bound `B: Into<Box<[u8]>>` actually required by the
source, the conversion inside `BoxBody::close` goes through the infallible
blanket `TryFrom` instance, so `close` always returns `Some(())`: the absent
branch is unreachable. -/
theorem close_byte_slice_never_fails (into : B → List Byte) (self : BoxBody) (body : B) :
    (BoxBody.close (intoTryInto into) self body).1 = some () := rfl

/-- C9: `Guard::accessible` holds exactly on the `Accessible` variant and
`Guard::inaccessible` is its boolean complement. -/
theorem accessible_inaccessible_complement (g : Guard T Resp Fac Ext) :
    (g.accessible = true ↔ ∃ v, g = .Accessible v) ∧
    g.inaccessible = !g.accessible := by
  cases g <;> simp [Guard.accessible, Guard.inaccessible]

/-- Witness for C9 at a concrete `Accessible` guard over `T = Nat`. -/
theorem accessible_inaccessible_complement_witness :
    (Guard.Accessible 3 : Guard Nat Unit Unit Unit).accessible = true ∧
    (Guard.Accessible 3 : Guard Nat Unit Unit Unit).inaccessible =
      !(Guard.Accessible 3 : Guard Nat Unit Unit Unit).accessible :=
  ⟨(accessible_inaccessible_complement (Guard.Accessible 3)).1.2 ⟨3, rfl⟩,
   (accessible_inaccessible_complement (Guard.Accessible 3)).2⟩

/-- C10: `BoxBody::open` is read-only: it returns the receiver unchanged, so
`BoxBody::raw_bytes` yields the same content before and after the call. -/
theorem open_read_only (try_from : List Byte → Except E B) (self : BoxBody) :
    (BoxBody.«open» try_from self).2 = self ∧
    BoxBody.raw_bytes (BoxBody.«open» try_from self).2 = BoxBody.raw_bytes self :=
  ⟨rfl, rfl⟩

end Grazie
